import Mathlib

/-!
Verification of the Sentinel security-analysis core (backend/app).

Shallow embedding of the evaluation pipeline from
`backend/app/fetchai_agent.py` and of the window store and enrichment
fallbacks from `backend/app/zircuit_listener.py`.

Modelling conventions:
* Python floats are modelled as `Rat` (all constants in the code are
  exact decimals and all arithmetic stays well away from rounding
  boundaries at the observed comparison points).
* `datetime.now()` is modelled by an explicit `now : Int` parameter
  (unix seconds), threaded to every function that reads the clock.
* A signal dict is modelled as a record holding the value each
  `signal.get(key, default)` call would return.  The `ratio` style
  keys of the Python dicts are rendered with the suffix `_frac`
  (allowance_ratio becomes `allowance_frac`, and so on).
* Fallible external lookups (web3 calls wrapped in try/except) are
  modelled as `Option` arguments: `none` is the raising case.
-/

/-- Security signal, as consumed by `_extract_features` and
`_behavioral_analysis`: the record holds the value each
`signal.get(key, default)` would return. -/
structure Signal where
  type : String
  timestamp : Int
  allowance_frac : Rat
  spender_known : Bool
  amount_frac : Rat
  gas_price : Nat
  to_contract : Bool
deriving DecidableEq, Repr

/-- Feature vector built by `_extract_features`. -/
structure Features where
  approval_count : Nat
  transfer_count : Nat
  max_allowance_frac : Rat
  total_outflow_frac : Rat
  unknown_spender_count : Nat
  time_window_minutes : Rat
  gas_price_anomaly : Bool
  contract_interactions : Nat
deriving DecidableEq, Repr

/-- Result of `_pattern_matching`. -/
structure ThreatLevel where
  patterns : List String
  confidence : Rat
  severity : String
deriving DecidableEq, Repr

/-- Result of `_behavioral_analysis`. -/
structure BehaviorRisk where
  risk_score : Rat
  anomalies : List String
  severity : String
deriving DecidableEq, Repr

/-- Final verdict (`SecurityAnalysis` model in the Python code). -/
structure SecurityAnalysis where
  severity : String
  reason : String
  confidence : Rat
  recommendations : List String
deriving DecidableEq, Repr

/-- Zero-initialised feature dict of `_extract_features`. -/
def init_features : Features :=
  { approval_count := 0
    transfer_count := 0
    max_allowance_frac := 0
    total_outflow_frac := 0
    unknown_spender_count := 0
    time_window_minutes := 0
    gas_price_anomaly := false
    contract_interactions := 0 }

/-- One iteration of the `for signal in signals` loop of
`_extract_features`; the second component carries `earliest_time`. -/
def feature_step (acc : Features × Int) (s : Signal) : Features × Int :=
  let f := acc.1
  let earliest := min acc.2 s.timestamp
  let f :=
    if s.type = "approval" then
      { f with
        approval_count := f.approval_count + 1
        max_allowance_frac := max f.max_allowance_frac s.allowance_frac
        unknown_spender_count :=
          f.unknown_spender_count + (if s.spender_known then 0 else 1) }
    else if s.type = "transfer" then
      { f with
        transfer_count := f.transfer_count + 1
        total_outflow_frac := f.total_outflow_frac + s.amount_frac }
    else f
  let f :=
    if s.to_contract then
      { f with contract_interactions := f.contract_interactions + 1 }
    else f
  let f :=
    if 100000000000 < s.gas_price then { f with gas_price_anomaly := true }
    else f
  (f, earliest)

/-- `_extract_features`: single pass over the signals, then the time
window in minutes from the earliest timestamp to `now`. -/
def extract_features (now : Int) (signals : List Signal) : Features :=
  let r := signals.foldl feature_step (init_features, now)
  { r.1 with time_window_minutes := mkRat (now - r.2) 60 }

/-- `_pattern_matching`: the three hard-coded attack patterns, applied
in order to the running (patterns, max confidence, max severity)
state. -/
def pattern_matching (features : Features) : ThreatLevel :=
  let st : List String × Rat × String := ([], 0, "low")
  let st :=
    if 1 ≤ features.approval_count ∧ 1 ≤ features.transfer_count ∧
       features.time_window_minutes < 1 ∧
       mkRat 5 10 < features.max_allowance_frac then
      (st.1 ++ ["flash_loan_attack"], max st.2.1 (mkRat 9 10), "high")
    else st
  let st :=
    if 3 ≤ features.approval_count ∧ 2 ≤ features.unknown_spender_count ∧
       mkRat 8 10 < features.max_allowance_frac then
      (st.1 ++ ["drainer_pattern"], max st.2.1 (mkRat 95 100), "high")
    else st
  let st :=
    if 1 ≤ features.approval_count ∧ 2 ≤ features.transfer_count ∧
       features.gas_price_anomaly = true then
      (st.1 ++ ["sandwich_attack"], max st.2.1 (mkRat 8 10),
        if st.2.2 ≠ "high" then "medium" else st.2.2)
    else st
  { patterns := st.1, confidence := st.2.1, severity := st.2.2 }

/-- Maximum of the gas prices of a signal slice (Python
`max(gas_prices)`; the fold starts at 0, which agrees with the Python
maximum on every list of naturals and is only consulted when the slice
is non-empty). -/
def max_gas_price (signals : List Signal) : Nat :=
  signals.foldl (fun m s => max m s.gas_price) 0

/-- `_behavioral_analysis`: three additive risk contributions, then
severity thresholds on the accumulated score. The `wallet_address`
argument of the Python method is unused there and omitted here. -/
def behavioral_analysis (signals : List Signal) : BehaviorRisk :=
  let risk0 : Rat := 0
  let anomalies0 : List String := []
  let risk1 := if 5 ≤ signals.length then risk0 + mkRat 3 10 else risk0
  let anomalies1 :=
    if 5 ≤ signals.length then anomalies0 ++ ["High transaction frequency"]
    else anomalies0
  let gas_cond := signals.length ≠ 0 ∧ 200000000000 < max_gas_price signals
  let risk2 := if gas_cond then risk1 + mkRat 2 10 else risk1
  let anomalies2 :=
    if gas_cond then anomalies1 ++ ["Unusually high gas prices"]
    else anomalies1
  let contract_cond := 3 ≤ signals.countP (·.to_contract)
  let risk3 := if contract_cond then risk2 + mkRat 4 10 else risk2
  let anomalies3 :=
    if contract_cond then anomalies2 ++ ["Multiple contract interactions"]
    else anomalies2
  let severity :=
    if mkRat 7 10 ≤ risk3 then "high"
    else if mkRat 4 10 ≤ risk3 then "medium"
    else "low"
  { risk_score := risk3, anomalies := anomalies3, severity := severity }

/-- Severity rank used by `_combine_analyses`
(`severity_order.get(x, 0)`). -/
def severity_rank (s : String) : Nat :=
  if s = "high" then 2 else if s = "medium" then 1 else 0

/-- Mathematical maximum of two severities under the total order
low < medium < high (the specification notion the combiner is claimed
to implement). -/
def sev_max (a b : String) : String :=
  if severity_rank a < severity_rank b then b else a

/-- `_generate_recommendations`: escalation ladder keyed on final
severity, plus pattern-specific and gas-anomaly addenda. -/
def generate_recommendations (severity : String) (features : Features)
    (patterns : List String) : List String :=
  let recs : List String := []
  let recs :=
    if severity = "high" then
      recs ++
        ["🚨 Immediately revoke all suspicious token approvals",
         "🔒 Rotate wallet signer/private keys",
         "💰 Transfer assets to a secure wallet",
         "🕵️ Review transaction history for unauthorized activity"]
    else if severity = "medium" then
      recs ++
        ["⚠️ Review and limit token approvals",
         "🔍 Monitor wallet activity closely",
         "🛡️ Consider using a hardware wallet for future transactions"]
    else
      recs ++
        ["✅ Continue normal security practices",
         "🔄 Periodic review of token approvals recommended"]
  let recs :=
    if "drainer_pattern" ∈ patterns then
      recs ++ ["🚫 Avoid interacting with unknown DApps"]
    else recs
  let recs :=
    if "flash_loan_attack" ∈ patterns then
      recs ++ ["⚡ Be cautious of MEV and flash loan risks"]
    else recs
  let recs :=
    if features.gas_price_anomaly then
      recs ++ ["⛽ Review gas price settings to avoid overpaying"]
    else recs
  recs

/-- `_combine_analyses`: final severity is the Python
`max([threat, behavior], key=severity_order.get)` (first maximal
element), confidence is `max(pattern, min(risk, 1.0))`, the reason
string is assembled from the pattern and anomaly clauses with a
default when both are empty. -/
def combine_analyses (threat : ThreatLevel) (behavior : BehaviorRisk)
    (features : Features) : SecurityAnalysis :=
  let final_severity :=
    if severity_rank threat.severity < severity_rank behavior.severity then
      behavior.severity
    else threat.severity
  let behavior_confidence := min behavior.risk_score 1
  let final_confidence := max threat.confidence behavior_confidence
  let reasons : List String :=
    (if threat.patterns ≠ [] then
       ["Detected patterns: " ++ String.intercalate ", " threat.patterns]
     else []) ++
    (if behavior.anomalies ≠ [] then
       ["Behavioral anomalies: " ++ String.intercalate ", " behavior.anomalies]
     else [])
  let reasons :=
    if reasons = [] then ["Standard security evaluation completed"] else reasons
  { severity := final_severity
    reason := String.intercalate "; " reasons
    confidence := final_confidence
    recommendations :=
      generate_recommendations final_severity features threat.patterns }

/-- `_agent_analysis` / `_analyze_signals`: the full evaluation
pipeline over one signal slice, at clock reading `now`. -/
def analyze_signals (now : Int) (signals : List Signal) : SecurityAnalysis :=
  let features := extract_features now signals
  let threat_level := pattern_matching features
  let behavior_risk := behavioral_analysis signals
  combine_analyses threat_level behavior_risk features

/-- Bounded FIFO append of `collections.deque(maxlen=cap)`
(`wallet_events[wallet].append(signal)` in `process_event`): push on
the right, drop from the left when over capacity. -/
def deque_append {α : Type} (cap : Nat) (w : List α) (s : α) : List α :=
  let w2 := w ++ [s]
  if w2.length ≤ cap then w2 else w2.drop (w2.length - cap)

/-- Appending a whole sequence of signals to a window, one
`deque_append` at a time. -/
def append_all {α : Type} (cap : Nat) (w : List α) (sigs : List α) : List α :=
  sigs.foldl (deque_append cap) w

/-- `calculate_allowance_ratio`: the balance lookup is `none` when the
web3 call raises; the except branch falls back to a heuristic keyed on
the raw approval value. -/
def calculate_allowance_frac (balance_lookup : Option Nat)
    (approval_value : Nat) : Rat :=
  match balance_lookup with
  | some balance =>
      if balance = 0 then (if 0 < approval_value then 1 else 0)
      else min ((approval_value : Rat) / (balance : Rat)) 1
  | none => if 10 ^ 18 < approval_value then mkRat 8 10 else mkRat 3 10

/-- `get_transaction_gas_price`: the transaction lookup is `none` when
the web3 call raises; the except branch returns 0. -/
def get_transaction_gas_price (tx_lookup : Option Nat) : Nat :=
  match tx_lookup with
  | some g => g
  | none => 0

/-! Concrete fixtures used by scenario claims and witnesses. -/

/-- Approval signal of the flash-loan scenario: allowance fraction 0.6,
known spender, at time 0. -/
def flashApproval : Signal :=
  { type := "approval", timestamp := 0, allowance_frac := mkRat 6 10,
    spender_known := true, amount_frac := 0, gas_price := 0,
    to_contract := false }

/-- Transfer signal of the flash-loan scenario, 1 second after the
approval. -/
def flashTransfer : Signal :=
  { type := "transfer", timestamp := 1, allowance_frac := 0,
    spender_known := true, amount_frac := mkRat 1 10, gas_price := 0,
    to_contract := false }

/-- Quiet-wallet scenario signal: a single low-value transfer with
amount fraction 0.05. -/
def quietTransfer : Signal :=
  { type := "transfer", timestamp := 100, allowance_frac := 0,
    spender_known := true, amount_frac := mkRat 5 100, gas_price := 0,
    to_contract := false }

/-- Feature vector of a flash-loan-shaped slice, used as a witness
input. -/
def fvFlash : Features :=
  { approval_count := 1, transfer_count := 1, max_allowance_frac := mkRat 6 10,
    total_outflow_frac := mkRat 1 10, unknown_spender_count := 0,
    time_window_minutes := mkRat 5 10, gas_price_anomaly := false,
    contract_interactions := 0 }

/-- Feature vector with no approvals and no transfers but otherwise
busy fields, used as a witness input. -/
def fvNoActivity : Features :=
  { approval_count := 0, transfer_count := 0, max_allowance_frac := mkRat 9 10,
    total_outflow_frac := 0, unknown_spender_count := 3,
    time_window_minutes := 0, gas_price_anomaly := true,
    contract_interactions := 5 }

/-! Helper lemmas shared between claims. -/

/-- Every pattern of `_pattern_matching` requires at least one
approval, so a feature vector without approvals matches nothing. -/
theorem pattern_matching_of_no_approvals (f : Features)
    (h : f.approval_count = 0) :
    pattern_matching f = { patterns := [], confidence := 0, severity := "low" } := by
  simp [pattern_matching, h]

/-- C1: the Severity Combiner computes `max(pattern severity,
behavioral severity)` under the order low < medium < high (checked on
all 9 combinations through `sev_max`), and final confidence is
`max(pattern confidence, min(behavioral risk score, 1.0))`. -/
theorem combiner_final_severity_and_confidence :
    (∀ (t : ThreatLevel) (b : BehaviorRisk) (f : Features),
        (combine_analyses t b f).severity = sev_max t.severity b.severity ∧
        (combine_analyses t b f).confidence =
          max t.confidence (min b.risk_score 1)) ∧
    (∀ p ∈ ["low", "medium", "high"], ∀ q ∈ ["low", "medium", "high"],
        severity_rank (sev_max p q) = max (severity_rank p) (severity_rank q) ∧
        (sev_max p q = p ∨ sev_max p q = q)) := by
  constructor
  · intro t b f
    exact ⟨rfl, rfl⟩
  · decide

/-- Witness for `combiner_final_severity_and_confidence` at the
medium/high combination. -/
theorem combiner_final_severity_and_confidence_witness :
    "medium" ∈ ["low", "medium", "high"] ∧
    "high" ∈ ["low", "medium", "high"] ∧
    severity_rank (sev_max "medium" "high") =
      max (severity_rank "medium") (severity_rank "high") ∧
    (sev_max "medium" "high" = "medium" ∨ sev_max "medium" "high" = "high") :=
  ⟨by decide, by decide,
   combiner_final_severity_and_confidence.2 "medium" (by decide) "high" (by decide)⟩

/-- C4: a feature vector with no approvals and no transfers matches no
pattern: empty match set, confidence 0.0, severity low. -/
theorem pattern_matcher_empty_on_no_activity :
    ∀ f : Features, f.approval_count = 0 → f.transfer_count = 0 →
      pattern_matching f = { patterns := [], confidence := 0, severity := "low" } := by
  intro f h1 _
  exact pattern_matching_of_no_approvals f h1

/-- Witness for `pattern_matcher_empty_on_no_activity` on a concrete
no-activity feature vector. -/
theorem pattern_matcher_empty_on_no_activity_witness :
    fvNoActivity.approval_count = 0 ∧ fvNoActivity.transfer_count = 0 ∧
    pattern_matching fvNoActivity =
      { patterns := [], confidence := 0, severity := "low" } :=
  ⟨rfl, rfl, pattern_matcher_empty_on_no_activity fvNoActivity rfl rfl⟩

/-- C2: any feature vector with at least one approval, at least one
transfer, elapsed minutes below 1 and maximum allowance fraction above
0.5 triggers `flash_loan_attack` with severity high and confidence at
least 0.9; the concrete flash-loan scenario evaluated 30 seconds in
yields exactly that single pattern with confidence 0.9. -/
theorem flash_loan_pattern_detected :
    (∀ f : Features, 1 ≤ f.approval_count → 1 ≤ f.transfer_count →
        f.time_window_minutes < 1 → mkRat 5 10 < f.max_allowance_frac →
        "flash_loan_attack" ∈ (pattern_matching f).patterns ∧
        (pattern_matching f).severity = "high" ∧
        mkRat 9 10 ≤ (pattern_matching f).confidence) ∧
    pattern_matching (extract_features 30 [flashApproval, flashTransfer]) =
      { patterns := ["flash_loan_attack"], confidence := mkRat 9 10, severity := "high" } := by
  constructor
  · intro f h1 h2 h3 h4
    have hf : 1 ≤ f.approval_count ∧ 1 ≤ f.transfer_count ∧
        f.time_window_minutes < 1 ∧ mkRat 5 10 < f.max_allowance_frac :=
      ⟨h1, h2, h3, h4⟩
    by_cases hd : 3 ≤ f.approval_count ∧ 2 ≤ f.unknown_spender_count ∧
        mkRat 8 10 < f.max_allowance_frac <;>
    by_cases hs : 2 ≤ f.transfer_count ∧ f.gas_price_anomaly = true <;>
    simp [pattern_matching, hf, hd, hs]
  · decide

/-- Witness for `flash_loan_pattern_detected` on a concrete
flash-loan-shaped feature vector. -/
theorem flash_loan_pattern_detected_witness :
    1 ≤ fvFlash.approval_count ∧ 1 ≤ fvFlash.transfer_count ∧
    fvFlash.time_window_minutes < 1 ∧ mkRat 5 10 < fvFlash.max_allowance_frac ∧
    ("flash_loan_attack" ∈ (pattern_matching fvFlash).patterns ∧
     (pattern_matching fvFlash).severity = "high" ∧
     mkRat 9 10 ≤ (pattern_matching fvFlash).confidence) :=
  ⟨by decide, by decide, by decide, by decide,
   flash_loan_pattern_detected.1 fvFlash (by decide) (by decide) (by decide)
     (by decide)⟩

/-- Folded maximum of gas prices exceeds a threshold exactly when the
accumulator or some listed signal does. -/
theorem foldl_max_gas_gt (T : Nat) (l : List Signal) : ∀ a : Nat,
    (T < l.foldl (fun m s => max m s.gas_price) a ↔
      T < a ∨ ∃ s ∈ l, T < s.gas_price) := by
  induction l with
  | nil => intro a; simp
  | cons x xs ih =>
      intro a
      rw [List.foldl_cons, ih]
      simp [lt_max_iff, or_assoc]

/-- The gas condition of `_behavioral_analysis` (non-empty slice and
maximum gas price above the threshold) says exactly that some signal
exceeds the threshold. -/
theorem gas_cond_iff (l : List Signal) :
    (l.length ≠ 0 ∧ 200000000000 < max_gas_price l) ↔
      ∃ s ∈ l, 200000000000 < s.gas_price := by
  rw [max_gas_price, foldl_max_gas_gt]
  constructor
  · rintro ⟨-, h | h⟩
    · omega
    · exact h
  · rintro ⟨s, hs, hgt⟩
    refine ⟨?_, Or.inr ⟨s, hs, hgt⟩⟩
    intro hlen
    rw [List.length_eq_zero] at hlen
    subst hlen
    simp at hs

/-- C3: the behavioral risk score is the sum of exactly the triggered
contributions 0.3 (slice length at least 5), 0.2 (some gas price above
200 Gwei-equivalent) and 0.4 (at least 3 contract-directed signals),
hence at most 0.9; severity is high iff the score reaches 0.7, medium
iff it is in [0.4, 0.7), low otherwise; and each triggered
contribution appends exactly one anomaly description. -/
theorem behavioral_scorer_spec : ∀ l : List Signal,
    (behavioral_analysis l).risk_score =
      (if 5 ≤ l.length then mkRat 3 10 else 0) +
      (if ∃ s ∈ l, 200000000000 < s.gas_price then mkRat 2 10 else 0) +
      (if 3 ≤ l.countP (·.to_contract) then mkRat 4 10 else 0) ∧
    (behavioral_analysis l).risk_score ≤ mkRat 9 10 ∧
    ((behavioral_analysis l).severity = "high" ↔
      mkRat 7 10 ≤ (behavioral_analysis l).risk_score) ∧
    ((behavioral_analysis l).severity = "medium" ↔
      mkRat 4 10 ≤ (behavioral_analysis l).risk_score ∧
      (behavioral_analysis l).risk_score < mkRat 7 10) ∧
    ((behavioral_analysis l).severity = "low" ↔
      (behavioral_analysis l).risk_score < mkRat 4 10) ∧
    (behavioral_analysis l).anomalies =
      (if 5 ≤ l.length then ["High transaction frequency"] else []) ++
      (if ∃ s ∈ l, 200000000000 < s.gas_price then ["Unusually high gas prices"]
       else []) ++
      (if 3 ≤ l.countP (·.to_contract) then ["Multiple contract interactions"]
       else []) := by
  intro l
  simp only [← gas_cond_iff]
  by_cases h1 : 5 ≤ l.length <;>
  by_cases h2a : l.length = 0 <;>
  by_cases h2b : 200000000000 < max_gas_price l <;>
  by_cases h3 : 3 ≤ l.countP (·.to_contract) <;>
  simp [behavioral_analysis, ne_eq, h1, h2a, h2b, h3] <;>
  norm_num [Rat.mkRat_eq_divInt] <;> decide

/-- Risk score of `_behavioral_analysis` as a sum of three independent
if-terms, in terms of the code-level guard conditions. -/
theorem behavioral_risk_eq (l : List Signal) :
    (behavioral_analysis l).risk_score =
      (if 5 ≤ l.length then mkRat 3 10 else 0) +
      (if l.length ≠ 0 ∧ 200000000000 < max_gas_price l then mkRat 2 10
       else 0) +
      (if 3 ≤ l.countP (·.to_contract) then mkRat 4 10 else 0) := by
  by_cases h1 : 5 ≤ l.length <;>
  by_cases h2a : l.length = 0 <;>
  by_cases h2b : 200000000000 < max_gas_price l <;>
  by_cases h3 : 3 ≤ l.countP (·.to_contract) <;>
  simp [behavioral_analysis, ne_eq, h1, h2a, h2b, h3]

/-- Monotonicity of an if-term that pays a fixed non-negative amount
when its guard holds, along an implication of guards. -/
theorem ite_le_ite_of_imp {p q : Prop} [Decidable p] [Decidable q]
    (h : p → q) {a : Rat} (ha : 0 ≤ a) :
    (if p then a else 0) ≤ (if q then a else 0) := by
  by_cases hp : p
  · rw [if_pos hp, if_pos (h hp)]
  · rw [if_neg hp]
    by_cases hq : q
    · rw [if_pos hq]; exact ha
    · rw [if_neg hq]

/-- C6: appending one more signal to a slice never lowers the
behavioral risk score: each of the three guard conditions is monotone
under appending, and each contribution is non-negative. -/
theorem behavioral_risk_monotone : ∀ (l : List Signal) (x : Signal),
    (behavioral_analysis l).risk_score ≤
      (behavioral_analysis (l ++ [x])).risk_score := by
  intro l x
  rw [behavioral_risk_eq, behavioral_risk_eq]
  have hgasmax : max_gas_price l ≤ max_gas_price (l ++ [x]) := by
    rw [max_gas_price, max_gas_price, List.foldl_append]
    exact le_max_left _ _
  refine add_le_add (add_le_add ?_ ?_) ?_
  · refine ite_le_ite_of_imp ?_ (by norm_num [Rat.mkRat_eq_divInt])
    intro h
    rw [List.length_append]
    omega
  · refine ite_le_ite_of_imp ?_ (by norm_num [Rat.mkRat_eq_divInt])
    rintro ⟨-, hgt⟩
    exact ⟨by simp, lt_of_lt_of_le hgt hgasmax⟩
  · refine ite_le_ite_of_imp ?_ (by norm_num [Rat.mkRat_eq_divInt])
    intro h
    rw [List.countP_append]
    omega

/-- C5 counterexample: `evaluate` reads the wall clock through
`_extract_features`, so two calls on the identical flash-loan slice at
clock readings 30 and 3600 return different Verdicts (severity high
versus low) — the claimed call-to-call idempotence fails because of
this environmental dependency. -/
theorem evaluate_clock_dependent :
    (analyze_signals 30 [flashApproval, flashTransfer]).severity ≠
      (analyze_signals 3600 [flashApproval, flashTransfer]).severity := by
  decide

/-- C5 amended: evaluation is a pure function of the signal slice and
the clock reading: two calls with the identical slice and the same
evaluation instant yield identical Verdicts. -/
theorem evaluate_deterministic_given_clock (s1 s2 : List Signal)
    (t1 t2 : Int) (hs : s1 = s2) (ht : t1 = t2) :
    analyze_signals t1 s1 = analyze_signals t2 s2 := by
  rw [hs, ht]

/-- Witness for `evaluate_deterministic_given_clock` on the quiet
slice at instant 100. -/
theorem evaluate_deterministic_given_clock_witness :
    [quietTransfer] = [quietTransfer] ∧ (100 : Int) = 100 ∧
    analyze_signals 100 [quietTransfer] = analyze_signals 100 [quietTransfer] :=
  ⟨rfl, rfl,
   evaluate_deterministic_given_clock [quietTransfer] [quietTransfer]
     100 100 rfl rfl⟩

/-- C9: when the ledger lookup raises, the allowance fraction falls
back to 0.8 for approval values above 10^18 and to 0.3 otherwise, and
the gas-price lookup falls back to 0; both functions are total, so a
failed enrichment never drops the signal. -/
theorem enrichment_lookup_fallback : ∀ v : Nat,
    calculate_allowance_frac none v =
      (if 10 ^ 18 < v then mkRat 8 10 else mkRat 3 10) ∧
    get_transaction_gas_price none = 0 := by
  intro v
  exact ⟨rfl, rfl⟩

/-- Second component of the `_extract_features` fold is the running
minimum of `now` and the signal timestamps. -/
theorem foldl_feature_step_snd (l : List Signal) :
    ∀ acc : Features × Int,
      (l.foldl feature_step acc).2 =
        l.foldl (fun e s => min e s.timestamp) acc.2 := by
  induction l with
  | nil => intro acc; rfl
  | cons x xs ih =>
      intro acc
      rw [List.foldl_cons, List.foldl_cons, ih]
      rfl

/-- Folding the minimum of timestamps never exceeds the start value. -/
theorem foldl_min_le (l : List Signal) : ∀ e0 : Int,
    l.foldl (fun e s => min e s.timestamp) e0 ≤ e0 := by
  induction l with
  | nil => intro e0; exact le_refl e0
  | cons x xs ih =>
      intro e0
      calc xs.foldl (fun e s => min e s.timestamp) (min e0 x.timestamp) ≤
            min e0 x.timestamp := ih _
        _ ≤ e0 := min_le_left _ _

/-- C10: the extracted time window is never negative: the earliest
time accumulator starts at the evaluation instant and only moves
backwards by `min`, so even future-dated signals cannot produce a
negative window. -/
theorem time_window_nonneg : ∀ (now : Int) (signals : List Signal),
    0 ≤ (extract_features now signals).time_window_minutes := by
  intro now signals
  show 0 ≤ mkRat (now - (signals.foldl feature_step (init_features, now)).2) 60
  have h : (signals.foldl feature_step (init_features, now)).2 ≤ now := by
    rw [foldl_feature_step_snd]
    exact foldl_min_le signals now
  have hsub : 0 ≤ now - (signals.foldl feature_step (init_features, now)).2 :=
    Int.sub_nonneg.mpr h
  rw [Rat.mkRat_eq_divInt]
  exact Rat.divInt_nonneg (by exact_mod_cast hsub) (by norm_num)

/-- One bounded append is an unconditional drop of the over-capacity
prefix. -/
theorem deque_append_eq_drop {α : Type} (cap : Nat) (w : List α) (s : α) :
    deque_append cap w s = (w ++ [s]).drop (w.length + 1 - cap) := by
  have hlen : (w ++ [s]).length = w.length + 1 := by simp
  simp only [deque_append, hlen]
  by_cases h : w.length + 1 ≤ cap
  · rw [if_pos h]
    have h0 : w.length + 1 - cap = 0 := by omega
    rw [h0, List.drop_zero]
  · rw [if_neg h]

/-- Folding bounded appends from a window within capacity keeps the
suffix of the concatenation that fits the capacity. -/
theorem append_all_eq_drop {α : Type} (cap : Nat) (sigs : List α) :
    ∀ w : List α, w.length ≤ cap →
      append_all cap w sigs =
        (w ++ sigs).drop (w.length + sigs.length - cap) := by
  induction sigs with
  | nil =>
      intro w hw
      have h0 : w.length + List.length ([] : List α) - cap = 0 := by
        simp only [List.length_nil]
        omega
      rw [h0, List.append_nil, List.drop_zero]
      rfl
  | cons s rest ih =>
      intro w hw
      have hstep := deque_append_eq_drop cap w s
      have hlen2 : ((w ++ [s]).drop (w.length + 1 - cap)).length =
          w.length + 1 - (w.length + 1 - cap) := by
        rw [List.length_drop]
        simp
      have hw' : ((w ++ [s]).drop (w.length + 1 - cap)).length ≤ cap := by
        rw [hlen2]
        omega
      have h1 : append_all cap w (s :: rest) =
          append_all cap (deque_append cap w s) rest := rfl
      rw [h1, hstep, ih _ hw', hlen2]
      have hk : w.length + 1 - cap ≤ (w ++ [s]).length := by
        simp only [List.length_append, List.length_singleton]
        omega
      rw [← List.drop_append_of_le_length hk, List.drop_drop]
      have hassoc : (w ++ [s]) ++ rest = w ++ (s :: rest) := by simp
      rw [hassoc]
      congr 1
      rw [List.length_cons]
      omega

/-- C7: appending 101 signals into an empty wallet window of capacity
100 evicts exactly the first signal: the final window is signals 2
through 101 in their original relative order. -/
theorem window_evicts_only_oldest {α : Type} : ∀ sigs : List α,
    sigs.length = 101 → append_all 100 [] sigs = sigs.drop 1 := by
  intro sigs h
  have hfull := append_all_eq_drop 100 sigs [] (by simp)
  simpa [h] using hfull

/-- Witness for `window_evicts_only_oldest` on the 101 naturals
0..100. -/
theorem window_evicts_only_oldest_witness :
    (List.range 101).length = 101 ∧
    append_all 100 [] (List.range 101) = (List.range 101).drop 1 :=
  ⟨by simp, window_evicts_only_oldest (List.range 101) (by simp)⟩

/-- Behavioral result on a single quiet signal (no very-high gas, not
contract-directed): zero score, no anomalies, severity low. -/
theorem behavioral_analysis_single_quiet (s : Signal)
    (hg : s.gas_price ≤ 200000000000) (hc : s.to_contract = false) :
    behavioral_analysis [s] =
      { risk_score := 0, anomalies := [], severity := "low" } := by
  have h2b : ¬ 200000000000 < max_gas_price [s] := by
    simp only [max_gas_price, List.foldl_cons, List.foldl_nil, Nat.zero_max]
    omega
  have h3 : ¬ 3 ≤ List.countP (fun x => x.to_contract) [s] := by
    simp [List.countP_cons, hc]
  simp [behavioral_analysis, h2b, h3]
  norm_num [Rat.mkRat_eq_divInt]

/-- C8 amended: a slice of one transfer signal with amount fraction
0.05, no gas anomaly and not contract-directed evaluates to final
severity low and the default reason, which the code capitalises as
"Standard security evaluation completed". -/
theorem quiet_wallet_low_default_reason :
    ∀ (now : Int) (s : Signal), s.type = "transfer" →
      s.amount_frac = mkRat 5 100 → s.gas_price ≤ 100000000000 →
      s.to_contract = false →
      (analyze_signals now [s]).severity = "low" ∧
      (analyze_signals now [s]).reason =
        "Standard security evaluation completed" := by
  intro now s ht ha hg hc
  have happ : (extract_features now [s]).approval_count = 0 := by
    have hg' : ¬ 100000000000 < s.gas_price := by omega
    simp [extract_features, feature_step, init_features, ht, hc, hg']
  have hpat := pattern_matching_of_no_approvals _ happ
  have hbeh := behavioral_analysis_single_quiet s (by omega) hc
  constructor <;>
    (simp only [analyze_signals]; rw [hpat, hbeh]; rfl)

/-- C8 counterexample: on the quiet-wallet slice the code produces a
capitalised reason string, so the claimed byte-for-byte default
"standard security evaluation completed" does not hold. -/
theorem quiet_wallet_reason_capitalization :
    ¬ ((analyze_signals 100 [quietTransfer]).severity = "low" ∧
       (analyze_signals 100 [quietTransfer]).reason =
         "standard security evaluation completed") := by
  decide

/-- Witness for `quiet_wallet_low_default_reason` on the concrete
quiet slice at instant 100. -/
theorem quiet_wallet_low_default_reason_witness :
    quietTransfer.type = "transfer" ∧
    quietTransfer.amount_frac = mkRat 5 100 ∧
    quietTransfer.gas_price ≤ 100000000000 ∧
    quietTransfer.to_contract = false ∧
    ((analyze_signals 100 [quietTransfer]).severity = "low" ∧
     (analyze_signals 100 [quietTransfer]).reason =
       "Standard security evaluation completed") :=
  ⟨rfl, rfl, by decide, rfl,
   quiet_wallet_low_default_reason 100 quietTransfer rfl rfl (by decide) rfl⟩
